import Mathlib

/-!
Shallow embedding of the BankofBrownBackend persistence layer (dal.js), the
alternate Mongoose repository (userRepository.js), the account controller's
deposit/withdraw/findOne/update routes (accountController.js) and the error
middleware (errorMiddleware.js).

Modelling conventions:
- The users collection is a list of documents in insertion order.
- JS numeric amounts and balances are modelled as integers.
- MongoDB findOneAndUpdate updates the first matching document and, with
  returnDocument 'after', yields the post-update document (or null).
- A JS function that can throw is modelled with Except; a thrown error still
  leaves behind whatever database writes already happened, so the mutated
  store is returned alongside the error.
-/

/-- A persisted user/account document (the users collection schema used by
dal.js: name, email, password, balance). -/
structure Account where
  name : String
  email : String
  password : String
  balance : Int
deriving Repr, DecidableEq

/-- The users collection, in insertion order. -/
abbrev Store := List Account

/-- MongoDB collection.findOne on an email query: the first matching document,
or null. -/
def mongoFindOne (s : Store) (email : String) : Option Account :=
  s.find? (fun u => u.email == email)

/-- MongoDB collection.findOneAndUpdate with returnDocument 'after': rewrite
the first document satisfying p with f, returning the new collection and the
post-update document (none when nothing matched). -/
def updateFirst (p : Account → Bool) (f : Account → Account) : Store → Store × Option Account
  | [] => ([], none)
  | u :: rest =>
    if p u then (f u :: rest, some (f u))
    else
      let r := updateFirst p f rest
      (u :: r.1, r.2)

/-- The domain faults dal.js throws, identified by their Error messages:
invalidAmount is "Amount must be positive.", notFound is "User not found.",
insufficientFunds is "Insufficient funds.". -/
inductive DalError where
  | invalidAmount
  | notFound
  | insufficientFunds
deriving Repr, DecidableEq

deriving instance DecidableEq for Except

/-- Outcome of a dal call that either throws a domain fault or returns a
(nullable) document. -/
abbrev DalResult := Except DalError (Option Account)

namespace Dal

/-- dal.create: insert a document with the given fields and balance 0 and
return the inserted document. -/
def create (s : Store) (name email password : String) : Store × Account :=
  let doc : Account := { name := name, email := email, password := password, balance := 0 }
  (s ++ [doc], doc)

/-- dal.find: every user whose email matches, as an array. -/
def find (s : Store) (email : String) : List Account :=
  s.filter (fun u => u.email == email)

/-- dal.findOne: look the user up; when the lookup comes back null, throw
"User not found.", otherwise return the looked-up (nullable) value. -/
def findOne (s : Store) (email : String) : DalResult :=
  let user := mongoFindOne s email
  if user.isNone then .error .notFound else .ok user

/-- A dollar-set document: the fields dal.update merges into the matched
user. A none field is absent from the update. -/
structure SetDoc where
  name : Option String := none
  password : Option String := none
  balance : Option Int := none
deriving Repr, DecidableEq

/-- Merge a dollar-set document into one user document. -/
def applySet (d : SetDoc) (u : Account) : Account :=
  { u with
      name := d.name.getD u.name
      password := d.password.getD u.password
      balance := d.balance.getD u.balance }

/-- dal.update: findOneAndUpdate with a dollar-set of newData, returning the
post-update document. -/
def update (s : Store) (email : String) (newData : SetDoc) : Store × Option Account :=
  updateFirst (fun u => u.email == email) (applySet newData) s

/-- dal.deposit. Faithful to the source's statement order: findOneAndUpdate
with a dollar-inc of amount runs FIRST, and only then is the amount checked
to be positive and the result checked against null; a thrown error therefore
leaves the already-applied increment in the store. -/
def deposit (s : Store) (email : String) (amount : Int) : Store × DalResult :=
  let r := updateFirst (fun u => u.email == email)
      (fun u => { u with balance := u.balance + amount }) s
  if amount ≤ 0 then (r.1, .error .invalidAmount)
  else if r.2.isNone then (r.1, .error .notFound)
  else (r.1, .ok r.2)

/-- dal.withdraw: reads the user, validates amount positivity, existence and
sufficient funds, and only then applies the dollar-inc decrement; the result
value is returned without a null check. -/
def withdraw (s : Store) (email : String) (amount : Int) : Store × DalResult :=
  let user := mongoFindOne s email
  if amount ≤ 0 then (s, .error .invalidAmount)
  else
    match user with
    | none => (s, .error .notFound)
    | some u =>
      if u.balance < amount then (s, .error .insufficientFunds)
      else
        let r := updateFirst (fun v => v.email == email)
            (fun v => { v with balance := v.balance - amount }) s
        (r.1, .ok r.2)

end Dal

/-- An HTTP response as the controller shapes it: a status code and the
message field of the JSON body. -/
structure HttpResponse where
  status : Nat
  message : String
deriving Repr, DecidableEq

namespace AccountController

/-- POST /deposit: call dal.deposit; any thrown error is caught and answered
with 500; a falsy (null) result is answered with 404; otherwise 200. -/
def depositRoute (s : Store) (email : String) (amount : Int) : Store × HttpResponse :=
  match Dal.deposit s email amount with
  | (s1, .error _) => (s1, { status := 500, message := "Internal server error" })
  | (s1, .ok result) =>
    if result.isNone then (s1, { status := 404, message := "User not found or deposit failed" })
    else (s1, { status := 200, message := "Deposit successful" })

/-- POST /withdraw: call dal.withdraw; any thrown error is caught and
answered with 500; a falsy (null) result is answered with 404; otherwise 200. -/
def withdrawRoute (s : Store) (email : String) (amount : Int) : Store × HttpResponse :=
  match Dal.withdraw s email amount with
  | (s1, .error _) => (s1, { status := 500, message := "Internal server error" })
  | (s1, .ok result) =>
    if result.isNone then (s1, { status := 404, message := "User not found or insufficient funds" })
    else (s1, { status := 200, message := "Withdrawal successful" })

/-- POST /findOne: call dal.findOne; a thrown error is caught and answered
with 500; a falsy user is answered with 404; otherwise the user is returned
(body summarised here by its status line). -/
def findOneRoute (s : Store) (email : String) : HttpResponse :=
  match Dal.findOne s email with
  | .error _ => { status := 500, message := "Internal server error" }
  | .ok user =>
    if user.isNone then { status := 404, message := "User not found" }
    else { status := 200, message := "OK" }

/-- POST /update: the route calls dal.update with exactly the name and
password fields from the request body. -/
def updateRoute (s : Store) (email name password : String) : Store × Option Account :=
  Dal.update s email { name := some name, password := some password }

end AccountController

/-- A JS Error as the error middleware sees it: its name, its message and the
optional statusCode set by the custom error classes (ValidationError sets
400, NotFoundError sets 404; plain Errors have none). -/
structure JsError where
  name : String
  message : String
  statusCode : Option Nat := none
deriving Repr, DecidableEq

/-- The error body the middleware sends in production mode (no stack): the
error's name and message. -/
structure ErrorBody where
  name : String
  message : String
deriving Repr, DecidableEq

/-- What the error middleware does: delegate to the default handler when
headers were already sent, or respond with a status and body. -/
inductive HandlerAction where
  | delegate (err : JsError)
  | respond (status : Nat) (body : ErrorBody)
deriving Repr, DecidableEq

/-- errorHandler from errorMiddleware.js: forward when headers were sent;
otherwise respond with the error's statusCode (defaulting to 500) and a body
built from the error's own name and message. -/
def errorHandler (err : JsError) (headersSent : Bool) : HandlerAction :=
  if headersSent then .delegate err
  else .respond (err.statusCode.getD 500) { name := err.name, message := err.message }

namespace UserRepository

/-- UserRepository.deposit (Mongoose): find the user, return null when
absent, otherwise add the amount, save, and return the updated balance. -/
def deposit (s : Store) (email : String) (amount : Int) : Store × Option Int :=
  match mongoFindOne s email with
  | none => (s, none)
  | some u =>
    let u2 := { u with balance := u.balance + amount }
    ((updateFirst (fun v => v.email == email) (fun _ => u2) s).1, some u2.balance)

/-- UserRepository.withdraw (Mongoose): return null when the user is absent
or the balance is below the amount; otherwise subtract, save, and return the
updated balance. -/
def withdraw (s : Store) (email : String) (amount : Int) : Store × Option Int :=
  match mongoFindOne s email with
  | none => (s, none)
  | some u =>
    if u.balance < amount then (s, none)
    else
      let u2 := { u with balance := u.balance - amount }
      ((updateFirst (fun v => v.email == email) (fun _ => u2) s).1, some u2.balance)

end UserRepository

/-- Concrete account used in witnesses: John with balance 0 as created. -/
def johnAt0 : Account :=
  { name := "John", email := "john@x.com", password := "pw", balance := 0 }

/-- Concrete account used in witnesses: Jane with balance 10. -/
def janeAt10 : Account :=
  { name := "Jane", email := "jane@x.com", password := "pw", balance := 10 }

/-! Helper lemmas about findOneAndUpdate (updateFirst). -/

/-- The post-update document is the first match, rewritten. -/
lemma updateFirst_snd (p : Account → Bool) (f : Account → Account) :
    ∀ s : Store, (updateFirst p f s).2 = (s.find? p).map f := by
  intro s
  induction s with
  | nil => rfl
  | cons u rest ih =>
    by_cases h : p u
    · simp [updateFirst, h, List.find?_cons_of_pos]
    · simp only [updateFirst, h, if_neg, Bool.false_eq_true, not_false_eq_true,
        List.find?_cons_of_neg, ih]

/-- When nothing matches, findOneAndUpdate leaves the collection unchanged
and yields null. -/
lemma updateFirst_of_none (p : Account → Bool) (f : Account → Account)
    (s : Store) (h : s.find? p = none) : updateFirst p f s = (s, none) := by
  induction s with
  | nil => rfl
  | cons u rest ih =>
    by_cases hu : p u
    · simp [List.find?_cons_of_pos, hu] at h
    · rw [List.find?_cons_of_neg _ hu] at h
      simp [updateFirst, hu, ih h]

/-- Looking the first match up after the update yields the rewritten
document, provided the rewrite does not change matching. -/
lemma find?_updateFirst (p : Account → Bool) (f : Account → Account)
    (hf : ∀ u, p (f u) = p u) (s : Store) :
    ((updateFirst p f s).1).find? p = (s.find? p).map f := by
  induction s with
  | nil => rfl
  | cons u rest ih =>
    by_cases h : p u
    · have hfu : p (f u) = true := by rw [hf]; exact h
      simp [updateFirst, h, List.find?_cons_of_pos, hfu]
    · simp only [updateFirst, h, if_neg, Bool.false_eq_true, not_false_eq_true,
        List.find?_cons_of_neg, ih]

/-! Behaviour of the dal operations on an existing or absent account. -/

/-- dal.deposit on an existing account with a positive amount: returns the
record with the incremented balance, and the store holds it. -/
lemma dal_deposit_found (s : Store) (email : String) (a : Int) (u : Account)
    (hu : mongoFindOne s email = some u) (ha : 0 < a) :
    (Dal.deposit s email a).2 = .ok (some { u with balance := u.balance + a }) ∧
    mongoFindOne (Dal.deposit s email a).1 email = some { u with balance := u.balance + a } := by
  have hle : ¬ a ≤ 0 := not_le.mpr ha
  have hu' : s.find? (fun v => v.email == email) = some u := hu
  have hsnd := updateFirst_snd (fun v => v.email == email)
      (fun v => { v with balance := v.balance + a }) s
  rw [hu'] at hsnd
  have hfst := find?_updateFirst (fun v => v.email == email)
      (fun v => { v with balance := v.balance + a }) (fun _ => rfl) s
  rw [hu'] at hfst
  constructor
  · simp [Dal.deposit, hsnd, hle]
  · simp [Dal.deposit, mongoFindOne, hle, hsnd, hfst]

/-- dal.deposit on an absent account with a positive amount: store unchanged,
"User not found." thrown. -/
lemma dal_deposit_absent (s : Store) (email : String) (a : Int)
    (h : mongoFindOne s email = none) (ha : 0 < a) :
    Dal.deposit s email a = (s, .error .notFound) := by
  have h' : s.find? (fun v => v.email == email) = none := h
  have hup := updateFirst_of_none (fun v => v.email == email)
      (fun v => { v with balance := v.balance + a }) s h'
  simp [Dal.deposit, hup, not_le.mpr ha]

/-- dal.withdraw on an existing account with a positive amount within the
balance: returns the record with the decremented balance, and the store holds
it. -/
lemma dal_withdraw_found (s : Store) (email : String) (a : Int) (u : Account)
    (hu : mongoFindOne s email = some u) (ha : 0 < a) (hb : a ≤ u.balance) :
    (Dal.withdraw s email a).2 = .ok (some { u with balance := u.balance - a }) ∧
    mongoFindOne (Dal.withdraw s email a).1 email = some { u with balance := u.balance - a } := by
  have hle : ¬ a ≤ 0 := not_le.mpr ha
  have hlt : ¬ u.balance < a := not_lt.mpr hb
  have hu' : s.find? (fun v => v.email == email) = some u := hu
  have hsnd := updateFirst_snd (fun v => v.email == email)
      (fun v => { v with balance := v.balance - a }) s
  rw [hu'] at hsnd
  have hfst := find?_updateFirst (fun v => v.email == email)
      (fun v => { v with balance := v.balance - a }) (fun _ => rfl) s
  rw [hu'] at hfst
  have hfstq : (Dal.withdraw s email a).1 =
      (updateFirst (fun v => v.email == email)
        (fun v => { v with balance := v.balance - a }) s).1 := by
    simp [Dal.withdraw, hu, hle, hlt]
  constructor
  · simp [Dal.withdraw, hu, hle, hlt, hsnd]
  · rw [hfstq]
    simpa [mongoFindOne] using hfst

/-- dal.withdraw when the balance is below the amount: the whole store is
unchanged and "Insufficient funds." is thrown. -/
lemma dal_withdraw_insufficient (s : Store) (email : String) (a : Int) (u : Account)
    (hu : mongoFindOne s email = some u) (ha : 0 < a) (hb : u.balance < a) :
    Dal.withdraw s email a = (s, .error .insufficientFunds) := by
  simp [Dal.withdraw, hu, not_le.mpr ha, hb]

example : (Dal.deposit [johnAt0] "john@x.com" 7).2 =
    .ok (some { johnAt0 with balance := 7 }) := by decide

example : (Dal.deposit [johnAt0] "john@x.com" (-5)).1 =
    [{ johnAt0 with balance := -5 }] := by decide

example : (Dal.withdraw [janeAt10] "jane@x.com" 4).2 =
    .ok (some { janeAt10 with balance := 6 }) := by decide

example : Dal.withdraw [janeAt10] "jane@x.com" 20 =
    ([janeAt10], .error .insufficientFunds) := by decide

/-! Claim theorems. -/

/-- Claim C1 (code bug in dal.deposit): the spec's invariant balance >= 0
fails on the code. Starting from the freshly created account with balance 0,
deposit of -5 throws "Amount must be positive." but has already applied the
increment, leaving the stored balance at -5. -/
theorem c1_deposit_drives_balance_negative :
    Dal.create [] "John" "john@x.com" "pw" = ([johnAt0], johnAt0) ∧
    (Dal.deposit [johnAt0] "john@x.com" (-5)).2 = .error .invalidAmount ∧
    (Dal.deposit [johnAt0] "john@x.com" (-5)).1 = [{ johnAt0 with balance := -5 }] := by
  decide

/-- Claim C2 (code bug in dal.deposit): deposit with a non-positive amount
does fail, but it mutates the stored record first: from balance 10, deposit
of -5 throws and leaves the store different from what it was. -/
theorem c2_nonpositive_deposit_mutates_store :
    (Dal.deposit [janeAt10] "jane@x.com" (-5)).2 = .error .invalidAmount ∧
    (Dal.deposit [janeAt10] "jane@x.com" (-5)).1 ≠ [janeAt10] := by
  decide

/-- Claim C3: for an existing account and 0 < a, withdraw with a <= balance
decreases the balance by exactly a and returns the post-update record, and
withdraw with balance < a throws "Insufficient funds." leaving the store
untouched. -/
theorem c3_withdraw_exact_or_insufficient (s : Store) (email : String) (a : Int)
    (u : Account) (hu : mongoFindOne s email = some u) (ha : 0 < a) :
    (a ≤ u.balance →
      (Dal.withdraw s email a).2 = .ok (some { u with balance := u.balance - a }) ∧
      mongoFindOne (Dal.withdraw s email a).1 email = some { u with balance := u.balance - a }) ∧
    (u.balance < a → Dal.withdraw s email a = (s, .error .insufficientFunds)) :=
  ⟨fun hb => dal_withdraw_found s email a u hu ha hb,
   fun hb => dal_withdraw_insufficient s email a u hu ha hb⟩

/-- Witness for C3 at a concrete store: Jane at balance 10, withdraw 4
succeeds with balance 6; withdraw 20 fails with insufficient funds. -/
theorem c3_withdraw_exact_or_insufficient_witness :
    (Dal.withdraw [janeAt10] "jane@x.com" 4).2 =
      .ok (some { janeAt10 with balance := janeAt10.balance - 4 }) ∧
    Dal.withdraw [janeAt10] "jane@x.com" 20 = ([janeAt10], .error .insufficientFunds) :=
  ⟨((c3_withdraw_exact_or_insufficient [janeAt10] "jane@x.com" 4 janeAt10 (by decide)
      (by decide)).1 (by decide)).1,
   (c3_withdraw_exact_or_insufficient [janeAt10] "jane@x.com" 20 janeAt10 (by decide)
      (by decide)).2 (by decide)⟩

/-- Claim C4: for 0 < a, deposit on an existing account increases the
balance by exactly a and returns the post-update record; deposit on an
absent email throws "User not found.". -/
theorem c4_deposit_adds_or_notFound (s : Store) (email : String) (a : Int)
    (u : Account) (ha : 0 < a) :
    (mongoFindOne s email = some u →
      (Dal.deposit s email a).2 = .ok (some { u with balance := u.balance + a }) ∧
      mongoFindOne (Dal.deposit s email a).1 email = some { u with balance := u.balance + a }) ∧
    (mongoFindOne s email = none → Dal.deposit s email a = (s, .error .notFound)) :=
  ⟨fun hu => dal_deposit_found s email a u hu ha,
   fun h => dal_deposit_absent s email a h ha⟩

/-- Witness for C4 at a concrete store: Jane at balance 10, deposit 3 yields
balance 13; deposit on the empty store throws not-found. -/
theorem c4_deposit_adds_or_notFound_witness :
    ((Dal.deposit [janeAt10] "jane@x.com" 3).2 =
        .ok (some { janeAt10 with balance := janeAt10.balance + 3 }) ∧
      mongoFindOne (Dal.deposit [janeAt10] "jane@x.com" 3).1 "jane@x.com" =
        some { janeAt10 with balance := janeAt10.balance + 3 }) ∧
    Dal.deposit [] "ghost@x.com" 3 = ([], .error .notFound) :=
  ⟨(c4_deposit_adds_or_notFound [janeAt10] "jane@x.com" 3 janeAt10 (by decide)).1 (by decide),
   (c4_deposit_adds_or_notFound [] "ghost@x.com" 3 janeAt10 (by decide)).2 (by decide)⟩

/-- Claim C5: with no matching record, dal.findOne throws "User not found."
and dal.find returns the empty array. -/
theorem c5_absent_email_findOne_find (s : Store) (email : String)
    (h : mongoFindOne s email = none) :
    Dal.findOne s email = .error .notFound ∧ Dal.find s email = [] := by
  have h' : s.find? (fun v => v.email == email) = none := h
  constructor
  · simp [Dal.findOne, h]
  · have hall := List.find?_eq_none.mp h'
    simpa [Dal.find, List.filter_eq_nil_iff] using hall

/-- Witness for C5 on a store holding only John, probed for another email. -/
theorem c5_absent_email_findOne_find_witness :
    Dal.findOne [johnAt0] "ghost@x.com" = .error .notFound ∧
    Dal.find [johnAt0] "ghost@x.com" = [] :=
  c5_absent_email_findOne_find [johnAt0] "ghost@x.com" (by decide)

/-- Claim C6 (code bug in the deposit/withdraw routes): the routes catch
every error dal throws and answer 500, so a not-found fault yields 500 (not
404) and an insufficient-funds fault yields 500 (not a 4xx); the routes' own
404 branch only fires on a null result, which dal never returns on these
paths. -/
theorem c6_domain_faults_all_become_500 :
    (Dal.deposit [] "ghost@x.com" 5).2 = .error .notFound ∧
    (AccountController.depositRoute [] "ghost@x.com" 5).2 =
      { status := 500, message := "Internal server error" } ∧
    (Dal.withdraw [] "ghost@x.com" 5).2 = .error .notFound ∧
    (AccountController.withdrawRoute [] "ghost@x.com" 5).2 =
      { status := 500, message := "Internal server error" } ∧
    (Dal.withdraw [janeAt10] "jane@x.com" 100).2 = .error .insufficientFunds ∧
    (AccountController.withdrawRoute [janeAt10] "jane@x.com" 100).2 =
      { status := 500, message := "Internal server error" } := by
  decide

/-- Claim C7 (code bug in errorMiddleware.js): an unclassified error (no
statusCode) is answered with 500, but the body echoes the error's own
message rather than a fixed string, as two errors differing only in message
produce different responses; the repository's own tests expect the fixed
body "Internal Server Error". -/
theorem c7_unclassified_500_message_not_fixed :
    errorHandler { name := "Error", message := "Some other error" } false =
      .respond 500 { name := "Error", message := "Some other error" } ∧
    errorHandler { name := "Error", message := "boom" } false ≠
      errorHandler { name := "Error", message := "Some other error" } false := by
  decide

/-- Claim C8: dal.findOne never succeeds with a null value, so the 404
branch guarding a successful dal.findOne in the /findOne route never fires:
the route's status is never 404. -/
theorem c8_findOne_success_never_null (s : Store) (email : String) :
    (∀ v, Dal.findOne s email = .ok v → v.isSome) ∧
    (AccountController.findOneRoute s email).status ≠ 404 := by
  constructor
  · intro v hv
    cases hm : mongoFindOne s email with
    | none => simp [Dal.findOne, hm] at hv
    | some u =>
      simp [Dal.findOne, hm] at hv
      simp [← hv]
  · cases hm : mongoFindOne s email with
    | none => simp [AccountController.findOneRoute, Dal.findOne, hm]
    | some u => simp [AccountController.findOneRoute, Dal.findOne, hm]

/-- Witness for C8 on a store holding John: the successful lookup is
non-null and the route does not answer 404. -/
theorem c8_findOne_success_never_null_witness :
    (some johnAt0 : Option Account).isSome ∧
    (AccountController.findOneRoute [johnAt0] "john@x.com").status ≠ 404 :=
  ⟨(c8_findOne_success_never_null [johnAt0] "john@x.com").1 (some johnAt0) (by decide),
   (c8_findOne_success_never_null [johnAt0] "john@x.com").2⟩

/-- Claim C9: on the success precondition (account present, 0 < a, and for
withdraw a within the balance), dal.js and UserRepository compute the same
post-operation balance: old plus a for deposit, old minus a for withdraw. -/
theorem c9_dal_userRepository_agree (s : Store) (email : String) (a : Int)
    (u : Account) (hu : mongoFindOne s email = some u) (ha : 0 < a) :
    ((Dal.deposit s email a).2 = .ok (some { u with balance := u.balance + a }) ∧
     (UserRepository.deposit s email a).2 = some (u.balance + a)) ∧
    (a ≤ u.balance →
      (Dal.withdraw s email a).2 = .ok (some { u with balance := u.balance - a }) ∧
      (UserRepository.withdraw s email a).2 = some (u.balance - a)) := by
  refine ⟨⟨(dal_deposit_found s email a u hu ha).1, ?_⟩,
    fun hb => ⟨(dal_withdraw_found s email a u hu ha hb).1, ?_⟩⟩
  · simp [UserRepository.deposit, hu]
  · simp [UserRepository.withdraw, hu, not_lt.mpr hb]

/-- Witness for C9: Jane at balance 10, deposit 2 gives 12 in both
implementations, withdraw 2 gives 8 in both. -/
theorem c9_dal_userRepository_agree_witness :
    ((Dal.deposit [janeAt10] "jane@x.com" 2).2 =
        .ok (some { janeAt10 with balance := janeAt10.balance + 2 }) ∧
      (UserRepository.deposit [janeAt10] "jane@x.com" 2).2 = some (janeAt10.balance + 2)) ∧
    ((Dal.withdraw [janeAt10] "jane@x.com" 2).2 =
        .ok (some { janeAt10 with balance := janeAt10.balance - 2 }) ∧
      (UserRepository.withdraw [janeAt10] "jane@x.com" 2).2 = some (janeAt10.balance - 2)) :=
  ⟨(c9_dal_userRepository_agree [janeAt10] "jane@x.com" 2 janeAt10 (by decide) (by decide)).1,
   (c9_dal_userRepository_agree [janeAt10] "jane@x.com" 2 janeAt10 (by decide) (by decide)).2
     (by decide)⟩

/-- Claim C10: the /update route calls dal.update with only the name and
password fields, so for an existing account the post-update record keeps the
account's email and balance unchanged; only name and password differ. -/
theorem c10_update_preserves_email_balance (s : Store) (email n pw : String)
    (u : Account) (hu : mongoFindOne s email = some u) :
    (AccountController.updateRoute s email n pw).2 =
      some { u with name := n, password := pw } ∧
    ({ u with name := n, password := pw } : Account).email = u.email ∧
    ({ u with name := n, password := pw } : Account).balance = u.balance := by
  refine ⟨?_, rfl, rfl⟩
  have hu' : s.find? (fun v => v.email == email) = some u := hu
  have hsnd := updateFirst_snd (fun v => v.email == email)
      (Dal.applySet { name := some n, password := some pw }) s
  rw [hu'] at hsnd
  simp [AccountController.updateRoute, Dal.update, hsnd, Dal.applySet]

/-- Witness for C10: updating Jane's name and password keeps her email and
balance. -/
theorem c10_update_preserves_email_balance_witness :
    (AccountController.updateRoute [janeAt10] "jane@x.com" "Janet" "pw2").2 =
      some { janeAt10 with name := "Janet", password := "pw2" } ∧
    ({ janeAt10 with name := "Janet", password := "pw2" } : Account).email = janeAt10.email ∧
    ({ janeAt10 with name := "Janet", password := "pw2" } : Account).balance = janeAt10.balance :=
  c10_update_preserves_email_balance [janeAt10] "jane@x.com" "Janet" "pw2" janeAt10 (by decide)
